import Mathlib

/-!
Shallow embedding of the Dota2 Telegram tracker bot (src/main.py) for
verification of its specification claims.

Conventions of the embedding:
- Python ints are modelled as Lean `Int`; Python `//` and `%` (whose divisors
  here are always the positive literals 10, 86400) are `Int.ediv` / `Int.emod`,
  which agree with Python floor division and modulo for positive divisors.
- SQLite tables are modelled as association lists keyed by their primary key;
  `INSERT ... ON CONFLICT ... DO UPDATE` becomes `upsertA` (replace the row if
  the key is present, append otherwise).
- `None` / nullable columns become `Option`; fallible fetches return `Option`.
- The asynchronous poll loop body for a single user (poll_worker, the part
  inside `for u in users`) is modelled as the pure state transformer
  `poll_step`: the network fetches become explicit inputs, the database writes
  become the returned user state and matches table, and the outbound Telegram
  sends become counters (`cards` for send_match_card, `streak_msgs` for the
  two streak alert messages).
-/

namespace DotaBot

/-! ### Generic association-list store (model of a SQLite table / Python dict) -/

section Assoc

variable {κ β : Type} [DecidableEq κ]

/-- Does the store hold an entry with primary key `k`? -/
def containsA (t : List (κ × β)) (k : κ) : Bool :=
  t.any (fun e => decide (e.1 = k))

/-- Value stored under the primary key `k`, if any. -/
def lookupA (t : List (κ × β)) (k : κ) : Option β :=
  (t.find? (fun e => decide (e.1 = k))).map Prod.snd

/-- Overwrite every entry whose key is `k` with the value `v`
(the UPDATE arm of an upsert; keys are unique in well-formed stores). -/
def replaceA (t : List (κ × β)) (k : κ) (v : β) : List (κ × β) :=
  t.map (fun e => if e.1 = k then (k, v) else e)

/-- Insert-or-update keyed by `k`: SQLite `INSERT ... ON CONFLICT DO UPDATE`,
and also Python dict assignment `cache[key] = value`. -/
def upsertA (t : List (κ × β)) (k : κ) (v : β) : List (κ × β) :=
  if containsA t k then replaceA t k v else t ++ [(k, v)]

/-- Number of rows stored under the key `k`. -/
def countA (t : List (κ × β)) (k : κ) : Nat :=
  (t.filter (fun e => decide (e.1 = k))).length

end Assoc

/-! ### Configuration constants (env-overridable in the source; defaults used) -/

/-- CACHE_TTL, seconds of OpenDota response caching (default 90). -/
def CACHE_TTL : Int := 90

/-- ASSUMED_MMR_DELTA, the fixed simulated-rating step (default 30). -/
def ASSUMED_MMR_DELTA : Int := 30

/-- STREAK_NOTIFY_WIN threshold (default 5). -/
def STREAK_NOTIFY_WIN : Int := 5

/-- STREAK_NOTIFY_LOSE threshold (default 5). -/
def STREAK_NOTIFY_LOSE : Int := 5

/-! ### Data model -/

/-- One row of the `users` table (the fields the reconciliation loop touches). -/
structure UserState where
  exact_mmr : Option Int
  current_mmr : Option Int
  max_mmr : Option Int
  last_any_match : Option Int
  last_ranked_match : Option Int
deriving DecidableEq, Repr

/-- A match summary as returned by the OpenDota players/…/matches endpoint
(the fields poll_worker reads; `m.get(..., 0)` defaults are regarded as
already applied). -/
structure MatchInfo where
  match_id : Int
  start_time : Int
  duration : Int
  hero_id : Int
  kills : Int
  deaths : Int
  assists : Int
  lobby_type : Int
  game_mode : Int
  radiant_win : Bool
  player_slot : Int
deriving DecidableEq, Repr

/-- One participant entry of a match-detail response: the fields poll_worker
extracts (`account_id`, `net_worth`, `gold_per_min`, and the `key` fields of
the purchase log). -/
structure PlayerDetail where
  account_id : Int
  net_worth : Option Int
  gold_per_min : Option Int
  purchase_keys : List String
deriving DecidableEq, Repr

/-- One row of the `matches` table, as written by db_upsert_match.
`radiant_win` is stored as `int(bool(...))`, hence `Int` 0/1 here. -/
structure StoredMatch where
  start_time : Int
  duration : Int
  hero_id : Int
  kills : Int
  deaths : Int
  assists : Int
  lobby_type : Int
  game_mode : Int
  radiant_win : Int
  player_slot : Int
  net_worth : Option Int
  gpm : Option Int
  delta_mmr : Option Int
  mmr_after : Option Int
deriving DecidableEq, Repr

/-- The `matches` table: primary key (steam32 TEXT, match_id INTEGER). -/
abbrev MatchTable := List ((String × Int) × StoredMatch)

/-- db_upsert_match: INSERT OR UPDATE of one matches row keyed by
(steam32, match_id). -/
def db_upsert_match (t : MatchTable) (k : String × Int) (row : StoredMatch) :
    MatchTable :=
  upsertA t k row

/-- SELECT of a single matches row by its primary key. -/
def db_lookup_match (t : MatchTable) (k : String × Int) : Option StoredMatch :=
  lookupA t k

/-! ### Domain derivations (pure helpers of src/main.py) -/

/-- is_player_win: `rad = player_slot < 128; (rad and radiant_win) or
((not rad) and (not radiant_win))`. -/
def is_player_win (player_slot : Int) (radiant_win : Bool) : Bool :=
  let rad := decide (player_slot < 128)
  (rad && radiant_win) || (!rad && !radiant_win)

/-- The core marker items of guess_role_from_purchase_and_gpm. -/
def core_items : List String :=
  ["bkb", "manta", "daedalus", "skadi", "desolator", "battle_fury",
   "butterfly", "radiance", "satanic"]

/-- The support marker items of guess_role_from_purchase_and_gpm. -/
def support_items : List String :=
  ["mekansm", "glimmer_cape", "force_staff", "guardian_greaves", "lotus_orb",
   "pipe", "urn_of_shadows", "spirit_vessel"]

/-- Does the purchase list contain some core marker item? -/
def has_core_item (purchase_keys : List String) : Bool :=
  core_items.any (fun x => purchase_keys.contains x)

/-- Does the purchase list contain some support marker item? -/
def has_support_item (purchase_keys : List String) : Bool :=
  support_items.any (fun x => purchase_keys.contains x)

/-- guess_role_from_purchase_and_gpm.  Python `if gpm and gpm >= 420` tests
truthiness of the int `gpm` first, i.e. `gpm ≠ 0 ∧ gpm ≥ 420`; likewise for
the `gpm < 350` rule. -/
def guess_role_from_purchase_and_gpm (purchase_keys : List String) (gpm : Int) :
    String :=
  if gpm ≠ 0 ∧ 420 ≤ gpm then "core"
  else if has_core_item purchase_keys then "core"
  else if has_support_item purchase_keys then "support"
  else if gpm ≠ 0 ∧ gpm < 350 then "support"
  else "core"

/-- The base value table of approx_mmr_from_rank_tier:
`{1:0,2:600,3:1200,4:1800,5:2600,6:3400,7:4400,8:5400}`. -/
def mmr_base_table (major : Int) : Option Int :=
  if major = 1 then some 0
  else if major = 2 then some 600
  else if major = 3 then some 1200
  else if major = 4 then some 1800
  else if major = 5 then some 2600
  else if major = 6 then some 3400
  else if major = 7 then some 4400
  else if major = 8 then some 5400
  else none

/-- approx_mmr_from_rank_tier.  The argument is `Option Int`: `none` stands
for any non-int input (None etc., the `isinstance` guard).  `//`/`%` with the
positive divisor 10 are `Int.ediv`/`Int.emod`. -/
def approx_mmr_from_rank_tier : Option Int → Option Int
  | none => none
  | some rank_tier =>
    let major := Int.ediv rank_tier 10
    let minor := Int.emod rank_tier 10
    match mmr_base_table major with
    | none => none
    | some b => if major = 8 then some b else some (b + (minor - 1) * 200)

/-! ### Streak computation (calc_streak_for_user) -/

/-- The win expression used on stored rows:
`(player_slot<128 and radiant_win==1) or (player_slot>=128 and radiant_win==0)`. -/
def rowWin (r : StoredMatch) : Bool :=
  (decide (r.player_slot < 128) && decide (r.radiant_win = 1)) ||
  (decide (128 ≤ r.player_slot) && decide (r.radiant_win = 0))

/-- The loop of calc_streak_for_user after the first row fixed `last_win`:
count further rows while their outcome equals `lastWin`, else break. -/
def streakLoop (wins : List Bool) (lastWin : Bool) (streak : Int) : Int :=
  match wins with
  | [] => streak
  | w :: ws => if w = lastWin then streakLoop ws lastWin (streak + 1) else streak

/-- calc_streak_for_user over the fetched rows (most-recent-first; the SQL
query supplies at most the 50 most recent rows).  Empty history returns 0;
otherwise the run length starting at the head, signed by the head outcome. -/
def calc_streak_for_user (rows : List StoredMatch) : Int :=
  match rows with
  | [] => 0
  | r :: rest =>
    let w := rowWin r
    let s := streakLoop (rest.map rowWin) w 1
    if w then s else -s

/-- A stored row that is a win for the tracked player (radiant slot, radiant
won): W in the spec's streak examples. -/
def winRow : StoredMatch :=
  { start_time := 0, duration := 0, hero_id := 0, kills := 0, deaths := 0,
    assists := 0, lobby_type := 0, game_mode := 0, radiant_win := 1,
    player_slot := 0, net_worth := none, gpm := none, delta_mmr := none,
    mmr_after := none }

/-- A stored row that is a loss for the tracked player (radiant slot, radiant
lost): L in the spec's streak examples. -/
def loseRow : StoredMatch :=
  { start_time := 0, duration := 0, hero_id := 0, kills := 0, deaths := 0,
    assists := 0, lobby_type := 0, game_mode := 0, radiant_win := 0,
    player_slot := 0, net_worth := none, gpm := none, delta_mmr := none,
    mmr_after := none }

/-! ### Poll reconciliation step (poll_worker body for one linked account) -/

/-- `effective = exact_mmr if exact_mmr is not None else current_mmr`
(DB values are ints, so the `isinstance(effective, int)` guard is exactly
`isSome` of this). -/
def effectiveMmr (u : UserState) : Option Int :=
  match u.exact_mmr with
  | some e => some e
  | none => u.current_mmr

/-- db_update_auto_mmr with a non-null value: sets current_mmr and raises
max_mmr to `MAX(COALESCE(max_mmr,0), mmr)`. -/
def apply_auto_mmr (u : UserState) (v : Int) : UserState :=
  { u with current_mmr := some v, max_mmr := some (max (u.max_mmr.getD 0) v) }

/-- Result of the ranked-MMR section of the new-match branch. -/
structure MmrStep where
  delta : Option Int
  mmr_after : Option Int
  user : UserState
deriving DecidableEq, Repr

/-- `delta = ASSUMED_MMR_DELTA if win else -ASSUMED_MMR_DELTA` of poll_worker. -/
def assumed_delta (m : MatchInfo) : Int :=
  if is_player_win m.player_slot m.radiant_win then ASSUMED_MMR_DELTA
  else -ASSUMED_MMR_DELTA

/-- Lines 864–878 of poll_worker: only for lobby_type 7, and only when an
effective base rating exists, compute `±ASSUMED_MMR_DELTA` by win/loss and
write the result back into exact_mmr when that was set, else into
current_mmr (via db_update_auto_mmr). -/
def ranked_mmr_step (u : UserState) (m : MatchInfo) : MmrStep :=
  if m.lobby_type = 7 then
    match effectiveMmr u with
    | some base =>
      let after := base + assumed_delta m
      if u.exact_mmr.isSome then
        ⟨some (assumed_delta m), some after, { u with exact_mmr := some after }⟩
      else
        ⟨some (assumed_delta m), some after, apply_auto_mmr u after⟩
    | none => ⟨none, none, u⟩
  else ⟨none, none, u⟩

/-- Extraction of net_worth / gold_per_min / role from the match detail:
the first participant with `account_id == steam32` wins; when the detail is
unavailable or the player is absent, the defaults `(None, None, "core")`
remain.  Python `gpm or 0` maps `None` and `0` to `0`. -/
def extract_player_stats (steam32 : Int) (detail : Option (List PlayerDetail)) :
    Option Int × Option Int × String :=
  match detail with
  | none => (none, none, "core")
  | some players =>
    match players.find? (fun p => decide (p.account_id = steam32)) with
    | none => (none, none, "core")
    | some p =>
      (p.net_worth, p.gold_per_min,
       guess_role_from_purchase_and_gpm p.purchase_keys (p.gold_per_min.getD 0))

/-- The row db_upsert_match writes for a new match.  The inferred role is
computed by poll_worker but NOT among the inserted columns, so it does not
appear here. -/
def stored_row (m : MatchInfo) (nw gpm delta mmr_after : Option Int) :
    StoredMatch :=
  { start_time := m.start_time, duration := m.duration, hero_id := m.hero_id,
    kills := m.kills, deaths := m.deaths, assists := m.assists,
    lobby_type := m.lobby_type, game_mode := m.game_mode,
    radiant_win := if m.radiant_win then 1 else 0,
    player_slot := m.player_slot,
    net_worth := nw, gpm := gpm, delta_mmr := delta, mmr_after := mmr_after }

/-- Insert into a list kept sorted by start_time descending (the model of
`ORDER BY start_time DESC`; ties in unspecified order, as in SQL). -/
def insertDescByStart (r : StoredMatch) : List StoredMatch → List StoredMatch
  | [] => [r]
  | x :: xs =>
    if x.start_time ≤ r.start_time then r :: x :: xs
    else x :: insertDescByStart r xs

/-- The rows calc_streak_for_user reads:
`SELECT ... WHERE steam32=? ORDER BY start_time DESC LIMIT 50`. -/
def rows_desc_for (t : MatchTable) (steam_key : String) : List StoredMatch :=
  ((((t.filter (fun e => decide (e.1.1 = steam_key))).map
      (fun e => e.2)).foldr insertDescByStart []).take 50)

/-- Outcome of one per-user poll iteration: final user row, final matches
table, number of send_match_card notifications, number of streak alert
messages. -/
structure PollResult where
  user : UserState
  table : MatchTable
  cards : Nat
  streak_msgs : Nat
deriving DecidableEq, Repr

/-- The new-match branch of poll_worker (taken when the fetched most-recent
match id differs from the stored last_any_match watermark): extract detail
stats, run the ranked MMR step, upsert the match row keyed by
(str(steam32), match_id), advance the watermark, send exactly one match card,
then recompute the streak and send the threshold alerts. -/
def poll_new_branch (table : MatchTable) (steam32 : Int) (u : UserState)
    (m : MatchInfo) (detail : Option (List PlayerDetail)) :
    UserState × MatchTable × Nat × Nat :=
  let ngr := extract_player_stats steam32 detail
  let step := ranked_mmr_step u m
  let row := stored_row m ngr.1 ngr.2.1 step.delta step.mmr_after
  let table1 := db_upsert_match table (toString steam32, m.match_id) row
  let u1 := { step.user with last_any_match := some m.match_id }
  let streak := calc_streak_for_user (rows_desc_for table1 (toString steam32))
  let smsgs := (if STREAK_NOTIFY_WIN ≤ streak then 1 else 0) +
               (if streak ≤ -STREAK_NOTIFY_LOSE then 1 else 0)
  (u1, table1, 1, smsgs)

/-- The ranked-watermark bookkeeping at the end of the user iteration:
if a most-recent ranked match id was fetched and differs from the ORIGINAL
row's last_ranked_match, store it (no notification). -/
def ranked_update (uOrig u2 : UserState) (ranked_fetched : Option Int) :
    UserState :=
  match ranked_fetched with
  | some rid =>
    if uOrig.last_ranked_match ≠ some rid
    then { u2 with last_ranked_match := some rid } else u2
  | none => u2

/-- One full per-user iteration of poll_worker.  `fetched` is the most-recent
any-mode match (none models a failed or empty fetch: the user is skipped
entirely, including the ranked bookkeeping, by `continue`).  `detail` is what
the uncached match-detail fetch would return; `ranked_fetched` the id of the
most-recent ranked match, if that fetch yields one. -/
def poll_step (table : MatchTable) (steam32 : Int) (u : UserState)
    (fetched : Option MatchInfo) (detail : Option (List PlayerDetail))
    (ranked_fetched : Option Int) : PollResult :=
  match fetched with
  | none => ⟨u, table, 0, 0⟩
  | some m =>
    let a :=
      if u.last_any_match = some m.match_id then (u, table, 0, 0)
      else poll_new_branch table steam32 u m detail
    ⟨ranked_update u a.1 ranked_fetched, a.2.1, a.2.2.1, a.2.2.2⟩

/-! ### Upstream client (od_get) -/

/-- What one HTTP attempt can come to, from the caller's viewpoint:
a transport-level exception (connection error / timeout), or a response with
a status code and a body; `body = none` models a body `await r.json()` fails
on. -/
inductive UpstreamResult (α : Type) where
  | netError : UpstreamResult α
  | response (status : Nat) (body : Option α) : UpstreamResult α
deriving DecidableEq, Repr

/-- The `try`-block of od_get: 404 yields None before raise_for_status;
raise_for_status raises for any status ≥ 400 and the exception is caught
yielding None; otherwise the parsed body is returned, with a parse failure
also caught to None. -/
def od_get_result {α : Type} : UpstreamResult α → Option α
  | .netError => none
  | .response status body =>
    if status = 404 then none
    else if 400 ≤ status then none
    else body

/-- One entry of the in-memory `_open_dota_cache`: (timestamp, data). -/
structure CacheEntry (α : Type) where
  ts : Int
  data : Option α
deriving DecidableEq, Repr

/-- The `_open_dota_cache` dict, keyed by the path+params signature. -/
abbrev Cache (α : Type) := List (String × CacheEntry α)

/-- Outcome of one od_get call: returned data, cache afterwards, and whether
a network request was performed. -/
structure OdGetOut (α : Type) where
  result : Option α
  cache : Cache α
  fetched : Bool
deriving DecidableEq, Repr

/-- od_get as a pure cache transformer.  With caching enabled and a fresh
entry (age < CACHE_TTL) the stored data is returned without any request and
without touching the cache; otherwise the request outcome — including the
None produced for errors — is stored under the key with the current time. -/
def od_get {α : Type} (c : Cache α) (now : Int) (key : String)
    (use_cache : Bool) (outcome : UpstreamResult α) : OdGetOut α :=
  match (if use_cache then lookupA c key else none) with
  | some e =>
    if now - e.ts < CACHE_TTL then ⟨e.data, c, false⟩
    else ⟨od_get_result outcome,
          upsertA c key ⟨now, od_get_result outcome⟩, true⟩
  | none =>
    ⟨od_get_result outcome, upsertA c key ⟨now, od_get_result outcome⟩, true⟩

/-! ### Daily report window (daily_worker) -/

/-- The UTC timestamp of local (UTC+off hours) midnight of the local day
containing `now_ts`: daily_worker's
`start_msk = now_msk.replace(hour=0, minute=0, second=0, microsecond=0);
start_utc = start_msk - offset; start_ts = start_utc.timestamp()`.
Flooring a timestamp shifted by the offset to a multiple of 86400 is exactly
that computation (`%` on Int is Euclidean and agrees with Python `%` for the
positive modulus 86400). -/
def daily_start_ts (now_ts off : Int) : Int :=
  let msk := now_ts + off * 3600
  (msk - msk % 86400) - off * 3600

/-- daily_worker's filter:
`[m for m in arr if start_ts <= m.get("start_time",0) <= end_ts]`. -/
def today_matches (arr : List MatchInfo) (start_ts end_ts : Int) :
    List MatchInfo :=
  arr.filter (fun m => decide (start_ts ≤ m.start_time) &&
                       decide (m.start_time ≤ end_ts))

/-! ### Lemmas about the association-list store -/

section AssocLemmas

variable {κ β : Type} [DecidableEq κ]

theorem containsA_nil (k : κ) : containsA ([] : List (κ × β)) k = false := rfl

theorem containsA_append (t₁ t₂ : List (κ × β)) (k : κ) :
    containsA (t₁ ++ t₂) k = (containsA t₁ k || containsA t₂ k) := by
  simp [containsA, List.any_append]

theorem containsA_replaceA (t : List (κ × β)) (k : κ) (v : β) :
    containsA (replaceA t k v) k = containsA t k := by
  induction t with
  | nil => rfl
  | cons e rest ih =>
    by_cases h : e.1 = k
    · simp [containsA, replaceA, h]
    · simp only [containsA, replaceA, List.map_cons, List.any_cons, if_neg h]
      simp only [containsA, replaceA] at ih
      rw [ih]

theorem replaceA_of_not_containsA (t : List (κ × β)) (k : κ) (v : β)
    (h : containsA t k = false) : replaceA t k v = t := by
  induction t with
  | nil => rfl
  | cons e rest ih =>
    simp only [containsA, List.any_cons, Bool.or_eq_false_iff,
      decide_eq_false_iff_not] at h
    simp only [replaceA, List.map_cons, if_neg h.1]
    have := ih (by simp only [containsA]; exact h.2)
    simp only [replaceA] at this
    rw [this]

theorem replaceA_cons (e : κ × β) (t : List (κ × β)) (k : κ) (v : β) :
    replaceA (e :: t) k v = (if e.1 = k then (k, v) else e) :: replaceA t k v :=
  rfl

theorem countA_cons (e : κ × β) (t : List (κ × β)) (k : κ) :
    countA (e :: t) k = (if e.1 = k then 1 else 0) + countA t k := by
  simp only [countA, List.filter_cons, decide_eq_true_eq]
  by_cases h : e.1 = k
  · simp [h, Nat.add_comm]
  · simp [h]

theorem replaceA_replaceA (t : List (κ × β)) (k : κ) (v : β) :
    replaceA (replaceA t k v) k v = replaceA t k v := by
  induction t with
  | nil => rfl
  | cons e rest ih =>
    rw [replaceA_cons, replaceA_cons, ih]
    by_cases h : e.1 = k
    · simp [h]
    · simp [h]

theorem replaceA_append (t₁ t₂ : List (κ × β)) (k : κ) (v : β) :
    replaceA (t₁ ++ t₂) k v = replaceA t₁ k v ++ replaceA t₂ k v := by
  simp [replaceA, List.map_append]

/-- Upsert is idempotent: re-applying the identical upsert changes nothing. -/
theorem upsertA_upsertA (t : List (κ × β)) (k : κ) (v : β) :
    upsertA (upsertA t k v) k v = upsertA t k v := by
  by_cases h : containsA t k = true
  · simp only [upsertA, if_pos h, containsA_replaceA, replaceA_replaceA]
  · have h' : containsA t k = false := by
      cases hc : containsA t k
      · rfl
      · exact absurd hc h
    simp only [upsertA, if_neg h]
    have hc2 : containsA (t ++ [(k, v)]) k = true := by
      rw [containsA_append]
      simp [containsA]
    rw [if_pos hc2, replaceA_append, replaceA_of_not_containsA t k v h']
    simp [replaceA]

theorem countA_nil (k : κ) : countA ([] : List (κ × β)) k = 0 := rfl

theorem countA_append (t₁ t₂ : List (κ × β)) (k : κ) :
    countA (t₁ ++ t₂) k = countA t₁ k + countA t₂ k := by
  simp [countA, List.filter_append]

theorem countA_replaceA (t : List (κ × β)) (k : κ) (v : β) :
    countA (replaceA t k v) k = countA t k := by
  induction t with
  | nil => rfl
  | cons e rest ih =>
    rw [replaceA_cons, countA_cons, countA_cons, ih]
    by_cases h : e.1 = k
    · simp [h]
    · simp [h]

theorem countA_eq_zero_of_not_containsA (t : List (κ × β)) (k : κ)
    (h : containsA t k = false) : countA t k = 0 := by
  induction t with
  | nil => rfl
  | cons e rest ih =>
    simp only [containsA, List.any_cons, Bool.or_eq_false_iff,
      decide_eq_false_iff_not] at h
    simp only [countA, List.filter_cons, decide_eq_true_eq, if_neg h.1]
    exact ih (by simp only [containsA]; exact h.2)

theorem containsA_eq_false_of_countA_zero (t : List (κ × β)) (k : κ)
    (h : countA t k = 0) : containsA t k = false := by
  induction t with
  | nil => rfl
  | cons e rest ih =>
    by_cases he : e.1 = k
    · exfalso
      simp [countA, List.filter_cons, he] at h
    · simp only [countA, List.filter_cons, decide_eq_true_eq, if_neg he] at h
      simp only [containsA, List.any_cons, decide_eq_false he, Bool.false_or]
      exact ih h

/-- Upserting into a key-unique table leaves exactly one row under the key. -/
theorem countA_upsertA (t : List (κ × β)) (k : κ) (v : β)
    (h : countA t k ≤ 1) : countA (upsertA t k v) k = 1 := by
  by_cases hc : containsA t k = true
  · rw [upsertA, if_pos hc, countA_replaceA]
    rcases Nat.lt_or_ge (countA t k) 1 with h1 | h1
    · exfalso
      have h0 : countA t k = 0 := Nat.lt_one_iff.mp h1
      rw [containsA_eq_false_of_countA_zero t k h0] at hc
      exact Bool.false_ne_true hc
    · exact Nat.le_antisymm h h1
  · have h' : containsA t k = false := by
      cases hcc : containsA t k
      · rfl
      · exact absurd hcc hc
    rw [upsertA, if_neg hc, countA_append,
      countA_eq_zero_of_not_containsA t k h']
    simp [countA, List.filter_cons]

/-- Lookup after upsert finds exactly the written value. -/
theorem lookupA_upsertA (t : List (κ × β)) (k : κ) (v : β) :
    lookupA (upsertA t k v) k = some v := by
  by_cases hc : containsA t k = true
  · rw [upsertA, if_pos hc]
    induction t with
    | nil => exact absurd hc (by simp [containsA])
    | cons e rest ih =>
      by_cases h : e.1 = k
      · simp [lookupA, replaceA, List.find?_cons, h]
      · simp only [containsA, List.any_cons, decide_eq_false h,
          Bool.false_or] at hc
        simp only [replaceA, List.map_cons, if_neg h, lookupA,
          List.find?_cons, decide_eq_false h]
        exact ih hc
  · have h' : containsA t k = false := by
      cases hcc : containsA t k
      · rfl
      · exact absurd hcc hc
    rw [upsertA, if_neg hc]
    induction t with
    | nil => simp [lookupA, List.find?_cons]
    | cons e rest ih =>
      simp only [containsA, List.any_cons, Bool.or_eq_false_iff,
        decide_eq_false_iff_not] at h'
      simp only [List.cons_append, lookupA, List.find?_cons,
        decide_eq_false h'.1]
      exact ih (by simp [containsA, h'.2]) (by simp [containsA, h'.2])

end AssocLemmas

/-! ### Reduction lemmas for poll_step -/

theorem poll_step_none (table : MatchTable) (steam32 : Int) (u : UserState)
    (detail : Option (List PlayerDetail)) (rf : Option Int) :
    poll_step table steam32 u none detail rf = ⟨u, table, 0, 0⟩ := rfl

theorem poll_step_hit (table : MatchTable) (steam32 : Int) (u : UserState)
    (m : MatchInfo) (detail : Option (List PlayerDetail)) (rf : Option Int)
    (h : u.last_any_match = some m.match_id) :
    poll_step table steam32 u (some m) detail rf =
      ⟨ranked_update u u rf, table, 0, 0⟩ := by
  simp only [poll_step, if_pos h]

theorem poll_step_new (table : MatchTable) (steam32 : Int) (u : UserState)
    (m : MatchInfo) (detail : Option (List PlayerDetail)) (rf : Option Int)
    (h : u.last_any_match ≠ some m.match_id) :
    poll_step table steam32 u (some m) detail rf =
      ⟨ranked_update u (poll_new_branch table steam32 u m detail).1 rf,
       (poll_new_branch table steam32 u m detail).2.1,
       (poll_new_branch table steam32 u m detail).2.2.1,
       (poll_new_branch table steam32 u m detail).2.2.2⟩ := by
  simp only [poll_step, if_neg h]

theorem poll_new_branch_user (table : MatchTable) (steam32 : Int)
    (u : UserState) (m : MatchInfo) (detail : Option (List PlayerDetail)) :
    (poll_new_branch table steam32 u m detail).1 =
      { (ranked_mmr_step u m).user with last_any_match := some m.match_id } :=
  rfl

theorem poll_new_branch_table (table : MatchTable) (steam32 : Int)
    (u : UserState) (m : MatchInfo) (detail : Option (List PlayerDetail)) :
    (poll_new_branch table steam32 u m detail).2.1 =
      db_upsert_match table (toString steam32, m.match_id)
        (stored_row m (extract_player_stats steam32 detail).1
          (extract_player_stats steam32 detail).2.1
          (ranked_mmr_step u m).delta (ranked_mmr_step u m).mmr_after) :=
  rfl

theorem poll_new_branch_cards (table : MatchTable) (steam32 : Int)
    (u : UserState) (m : MatchInfo) (detail : Option (List PlayerDetail)) :
    (poll_new_branch table steam32 u m detail).2.2.1 = 1 :=
  rfl

theorem ranked_update_last_any (uOrig u2 : UserState) (rf : Option Int) :
    (ranked_update uOrig u2 rf).last_any_match = u2.last_any_match := by
  cases rf with
  | none => rfl
  | some rid =>
    by_cases h : uOrig.last_ranked_match ≠ some rid
    · simp [ranked_update, h]
    · simp [ranked_update, h]

theorem ranked_update_exact_mmr (uOrig u2 : UserState) (rf : Option Int) :
    (ranked_update uOrig u2 rf).exact_mmr = u2.exact_mmr := by
  cases rf with
  | none => rfl
  | some rid =>
    by_cases h : uOrig.last_ranked_match ≠ some rid
    · simp [ranked_update, h]
    · simp [ranked_update, h]

theorem ranked_update_current_mmr (uOrig u2 : UserState) (rf : Option Int) :
    (ranked_update uOrig u2 rf).current_mmr = u2.current_mmr := by
  cases rf with
  | none => rfl
  | some rid =>
    by_cases h : uOrig.last_ranked_match ≠ some rid
    · simp [ranked_update, h]
    · simp [ranked_update, h]

theorem poll_step_new_user (table : MatchTable) (steam32 : Int)
    (u : UserState) (m : MatchInfo) (detail : Option (List PlayerDetail))
    (rf : Option Int) (h : u.last_any_match ≠ some m.match_id) :
    (poll_step table steam32 u (some m) detail rf).user =
      ranked_update u
        { (ranked_mmr_step u m).user with last_any_match := some m.match_id }
        rf := by
  rw [poll_step_new table steam32 u m detail rf h]
  rfl

theorem poll_step_new_table (table : MatchTable) (steam32 : Int)
    (u : UserState) (m : MatchInfo) (detail : Option (List PlayerDetail))
    (rf : Option Int) (h : u.last_any_match ≠ some m.match_id) :
    (poll_step table steam32 u (some m) detail rf).table =
      db_upsert_match table (toString steam32, m.match_id)
        (stored_row m (extract_player_stats steam32 detail).1
          (extract_player_stats steam32 detail).2.1
          (ranked_mmr_step u m).delta (ranked_mmr_step u m).mmr_after) := by
  rw [poll_step_new table steam32 u m detail rf h]
  rfl

theorem poll_step_new_cards (table : MatchTable) (steam32 : Int)
    (u : UserState) (m : MatchInfo) (detail : Option (List PlayerDetail))
    (rf : Option Int) (h : u.last_any_match ≠ some m.match_id) :
    (poll_step table steam32 u (some m) detail rf).cards = 1 := by
  rw [poll_step_new table steam32 u m detail rf h]
  rfl

theorem poll_step_hit_user (table : MatchTable) (steam32 : Int)
    (u : UserState) (m : MatchInfo) (detail : Option (List PlayerDetail))
    (rf : Option Int) (h : u.last_any_match = some m.match_id) :
    (poll_step table steam32 u (some m) detail rf).user =
      ranked_update u u rf := by
  rw [poll_step_hit table steam32 u m detail rf h]

theorem poll_step_hit_rest (table : MatchTable) (steam32 : Int)
    (u : UserState) (m : MatchInfo) (detail : Option (List PlayerDetail))
    (rf : Option Int) (h : u.last_any_match = some m.match_id) :
    (poll_step table steam32 u (some m) detail rf).table = table ∧
    (poll_step table steam32 u (some m) detail rf).cards = 0 ∧
    (poll_step table steam32 u (some m) detail rf).streak_msgs = 0 := by
  rw [poll_step_hit table steam32 u m detail rf h]
  exact ⟨rfl, rfl, rfl⟩

theorem ranked_mmr_step_spec (u : UserState) (m : MatchInfo) (base : Int)
    (h2 : m.lobby_type = 7) (h3 : effectiveMmr u = some base) :
    ranked_mmr_step u m =
      ⟨some (assumed_delta m), some (base + assumed_delta m),
       if u.exact_mmr.isSome then
         { u with exact_mmr := some (base + assumed_delta m) }
       else apply_auto_mmr u (base + assumed_delta m)⟩ := by
  obtain ⟨ex, cur, mx, la, lr⟩ := u
  cases ex with
  | some e =>
    have hbase : e = base := by simpa [effectiveMmr] using h3
    subst hbase
    simp [ranked_mmr_step, h2, effectiveMmr]
  | none =>
    have hcur : cur = some base := by simpa [effectiveMmr] using h3
    subst hcur
    simp [ranked_mmr_step, h2, effectiveMmr]

/-- streakLoop counts, on top of its accumulator, the leading run of entries
equal to `lastWin`. -/
theorem streakLoop_eq (wins : List Bool) (w : Bool) (n : Int) :
    streakLoop wins w n =
      n + ((wins.takeWhile (fun x => x == w)).length : Int) := by
  induction wins generalizing n with
  | nil => simp [streakLoop]
  | cons b bs ih =>
    by_cases h : b = w
    · subst h
      simp only [streakLoop, if_pos rfl, List.takeWhile_cons, beq_self_eq_true,
        if_true, List.length_cons, ih]
      omega
    · simp [streakLoop, List.takeWhile_cons, h]

/-! ### Claims -/

/-- Claim C4: the win classifier declares a win iff (radiant slot AND radiant
won) OR (dire slot AND radiant lost), with side decided by the slot
threshold 128; it is antitone in the outcome for a fixed slot, and flips
across the slot threshold for a fixed outcome. -/
theorem c4_win_classification :
    (∀ (slot : Int) (rw : Bool),
      (is_player_win slot rw = true ↔
        ((slot < 128 ∧ rw = true) ∨ (128 ≤ slot ∧ rw = false)))) ∧
    (∀ (slot : Int) (rw : Bool),
      is_player_win slot rw = !is_player_win slot (!rw)) ∧
    (∀ (s1 s2 : Int) (rw : Bool), s1 < 128 → 128 ≤ s2 →
      is_player_win s1 rw = !is_player_win s2 rw) := by
  refine ⟨?_, ?_, ?_⟩
  · intro slot rw
    by_cases h : slot < 128 <;> cases rw <;> simp [is_player_win, h] <;> omega
  · intro slot rw
    by_cases h : slot < 128 <;> cases rw <;> simp [is_player_win, h]
  · intro s1 s2 rw h1 h2
    have h2' : ¬ s2 < 128 := by omega
    cases rw <;> simp [is_player_win, h1, h2']

/-- Witness for C4's hypotheses at slot 0 (radiant) versus slot 200 (dire). -/
theorem c4_win_classification_witness :
    (0 : Int) < 128 ∧ (128 : Int) ≤ 200 ∧
    is_player_win 0 true = !is_player_win 200 true :=
  ⟨by decide, by decide, c4_win_classification.2.2 0 200 true (by decide) (by decide)⟩

/-- Claim C5: calc_streak_for_user returns 0 on empty history, and otherwise
the length of the run of equal outcomes starting at the most recent row,
positive for a win streak and negative for a loss streak; in particular
[W,W,W,L,W] gives 3, [L,L,W] gives -2, [] gives 0. -/
theorem c5_streak_sign (r : StoredMatch) (rest : List StoredMatch) :
    calc_streak_for_user [] = 0 ∧
    calc_streak_for_user (r :: rest) =
      (if rowWin r
       then ((((r :: rest).map rowWin).takeWhile
                (fun x => x == rowWin r)).length : Int)
       else -((((r :: rest).map rowWin).takeWhile
                (fun x => x == rowWin r)).length : Int)) ∧
    calc_streak_for_user [winRow, winRow, winRow, loseRow, winRow] = 3 ∧
    calc_streak_for_user [loseRow, loseRow, winRow] = -2 := by
  refine ⟨rfl, ?_, by decide, by decide⟩
  simp only [calc_streak_for_user, List.map_cons, List.takeWhile_cons,
    beq_self_eq_true, if_true, List.length_cons, streakLoop_eq]
  cases hw : rowWin r <;> simp [hw] <;> omega

/-- Claim C6 counterexample: a status-300 response with a parseable body is
neither 2xx nor 404, yet od_get returns the parsed body, not the
unavailable sentinel None. -/
theorem c6_counterexample :
    Nat.div 300 100 ≠ 2 ∧ (300 : Nat) ≠ 404 ∧
    od_get_result (UpstreamResult.response 300 (some (0 : Int))) = some 0 ∧
    od_get_result (UpstreamResult.response 300 (some (0 : Int))) ≠ none := by
  refine ⟨by decide, by decide, by decide, by decide⟩

/-- Claim C6 as amended: the upstream helper never raises (it is a total
function into Option); it returns None for a transport error, for a 404, and
for any error status ≥ 400, and otherwise returns the body parse result
(the parsed value, or None when parsing fails). -/
theorem c6_od_get_result_amended {α : Type} (r : UpstreamResult α) :
    (r = UpstreamResult.netError → od_get_result r = none) ∧
    (∀ (status : Nat) (body : Option α),
      r = UpstreamResult.response status body → status = 404 →
      od_get_result r = none) ∧
    (∀ (status : Nat) (body : Option α),
      r = UpstreamResult.response status body → 400 ≤ status →
      od_get_result r = none) ∧
    (∀ (status : Nat) (body : Option α),
      r = UpstreamResult.response status body → status < 400 → status ≠ 404 →
      od_get_result r = body) := by
  refine ⟨?_, ?_, ?_, ?_⟩
  · rintro rfl; rfl
  · rintro s b rfl h404
    simp [od_get_result, h404]
  · rintro s b rfl hge
    by_cases h : s = 404
    · simp [od_get_result, h]
    · simp [od_get_result, h, hge]
  · rintro s b rfl hlt hne
    have hnge : ¬ 400 ≤ s := by omega
    simp [od_get_result, hne, hnge]

/-- Witness for C6's amended theorem at a successful 200 response. -/
theorem c6_od_get_result_amended_witness :
    (200 : Nat) < 400 ∧ (200 : Nat) ≠ 404 ∧
    od_get_result (UpstreamResult.response 200 (some (7 : Int))) = some 7 :=
  ⟨by decide, by decide,
   (c6_od_get_result_amended (UpstreamResult.response 200 (some (7 : Int)))).2.2.2
     200 (some 7) rfl (by decide) (by decide)⟩

/-- Claim C7 counterexample: with no marker items and pace 0 (below the lower
threshold 350), the code returns "core", not "support" — the Python `gpm and
gpm < 350` guard treats pace 0 as no data. -/
theorem c7_counterexample :
    guess_role_from_purchase_and_gpm [] 0 = "core" ∧ (0 : Int) < 350 ∧
    guess_role_from_purchase_and_gpm [] 0 ≠ "support" := by
  refine ⟨by decide, by decide, by decide⟩

/-- Claim C7 as amended: rules evaluate in order — pace ≥ 420 gives "core";
else a core marker item gives "core"; else a support marker item gives
"support"; else a NONZERO pace below 350 gives "support"; else (including
pace exactly 0) the default "core". -/
theorem c7_role_rules (keys : List String) (gpm : Int) :
    (420 ≤ gpm → guess_role_from_purchase_and_gpm keys gpm = "core") ∧
    (has_core_item keys = true → gpm < 420 →
      guess_role_from_purchase_and_gpm keys gpm = "core") ∧
    (has_core_item keys = false → has_support_item keys = true → gpm < 420 →
      guess_role_from_purchase_and_gpm keys gpm = "support") ∧
    (has_core_item keys = false → has_support_item keys = false → gpm ≠ 0 →
      gpm < 350 → guess_role_from_purchase_and_gpm keys gpm = "support") ∧
    (has_core_item keys = false → has_support_item keys = false →
      (gpm = 0 ∨ (350 ≤ gpm ∧ gpm < 420)) →
      guess_role_from_purchase_and_gpm keys gpm = "core") := by
  refine ⟨?_, ?_, ?_, ?_, ?_⟩
  · intro h
    have h0 : gpm ≠ 0 := by omega
    simp [guess_role_from_purchase_and_gpm, h, h0]
  · intro hc hlt
    have h1 : ¬ (gpm ≠ 0 ∧ 420 ≤ gpm) := by omega
    simp [guess_role_from_purchase_and_gpm, h1, hc]
  · intro hc hs hlt
    have h1 : ¬ (gpm ≠ 0 ∧ 420 ≤ gpm) := by omega
    simp [guess_role_from_purchase_and_gpm, h1, hc, hs]
  · intro hc hs h0 hlt
    have h1 : ¬ (gpm ≠ 0 ∧ 420 ≤ gpm) := by omega
    simp [guess_role_from_purchase_and_gpm, h1, hc, hs, h0, hlt]
    omega
  · intro hc hs hd
    have h1 : ¬ (gpm ≠ 0 ∧ 420 ≤ gpm) := by omega
    have h4 : ¬ (gpm ≠ 0 ∧ gpm < 350) := by omega
    simp [guess_role_from_purchase_and_gpm, h1, h4, hc, hs]

/-- Witness for C7's amended rules: a core item with mid pace, and the
priority of core markers over support markers between the thresholds. -/
theorem c7_role_rules_witness :
    has_core_item ["bkb", "mekansm"] = true ∧ (400 : Int) < 420 ∧
    guess_role_from_purchase_and_gpm ["bkb", "mekansm"] 400 = "core" :=
  ⟨by decide, by decide,
   (c7_role_rules ["bkb", "mekansm"] 400).2.1 (by decide) (by decide)⟩

/-- Claim C9 counterexample: rank tier 80 (Immortal) has its major
subdivision 8 in the table, yet the code returns the bare base 5400 instead
of base + (minor − 1) × 200 = 5200. -/
theorem c9_counterexample :
    approx_mmr_from_rank_tier (some 80) = some 5400 ∧
    mmr_base_table (Int.ediv 80 10) = some 5400 ∧
    approx_mmr_from_rank_tier (some 80) ≠
      some (5400 + (Int.emod 80 10 - 1) * 200) := by
  refine ⟨by decide, by decide, by decide⟩

/-- Claim C9 as amended: for an integer rank tier whose major subdivision is
in the table and differs from 8, the estimate is base[major] +
(minor − 1) × 200; for major 8 it is the bare base; non-integers and majors
outside the table give no estimate. -/
theorem c9_approx_mmr (rt b : Int) :
    (approx_mmr_from_rank_tier none = none) ∧
    (mmr_base_table (Int.ediv rt 10) = none →
      approx_mmr_from_rank_tier (some rt) = none) ∧
    (mmr_base_table (Int.ediv rt 10) = some b → Int.ediv rt 10 ≠ 8 →
      approx_mmr_from_rank_tier (some rt) =
        some (b + (Int.emod rt 10 - 1) * 200)) ∧
    (mmr_base_table (Int.ediv rt 10) = some b → Int.ediv rt 10 = 8 →
      approx_mmr_from_rank_tier (some rt) = some b) := by
  refine ⟨rfl, ?_, ?_, ?_⟩
  · intro h
    simp [approx_mmr_from_rank_tier, h]
  · intro h h8
    simp [approx_mmr_from_rank_tier, h, h8]
  · intro h h8
    rw [h8] at h
    simp [approx_mmr_from_rank_tier, h8, h]

/-- Witness for C9's amended theorem at rank tier 45 (Archon 5). -/
theorem c9_approx_mmr_witness :
    mmr_base_table (Int.ediv 45 10) = some 1800 ∧ Int.ediv 45 10 ≠ 8 ∧
    approx_mmr_from_rank_tier (some 45) =
      some (1800 + (Int.emod 45 10 - 1) * 200) :=
  ⟨by decide, by decide,
   (c9_approx_mmr 45 1800).2.2.1 (by decide) (by decide)⟩

/-- Claim C8: the daily report window starts exactly at local (UTC+off)
midnight and extends to now: the window start never lies after now; a match
starting exactly at local midnight is kept by the filter; a match starting
one second earlier is dropped, and that instant belongs to the local day
starting exactly one day (86400 s) earlier. -/
theorem c8_daily_window (now off : Int) (arr : List MatchInfo)
    (m : MatchInfo) :
    daily_start_ts now off ≤ now ∧
    (m ∈ arr → m.start_time = daily_start_ts now off →
      m ∈ today_matches arr (daily_start_ts now off) now) ∧
    (m.start_time = daily_start_ts now off - 1 →
      m ∉ today_matches arr (daily_start_ts now off) now) ∧
    daily_start_ts (daily_start_ts now off - 1) off =
      daily_start_ts now off - 86400 := by
  refine ⟨?_, ?_, ?_, ?_⟩
  · simp only [daily_start_ts]
    omega
  · intro hm he
    simp only [today_matches, List.mem_filter, Bool.and_eq_true,
      decide_eq_true_eq]
    refine ⟨hm, le_of_eq he.symm, ?_⟩
    rw [he]
    simp only [daily_start_ts]
    omega
  · intro he hcontra
    rcases List.mem_filter.mp hcontra with ⟨-, hcond⟩
    rw [Bool.and_eq_true, decide_eq_true_eq, decide_eq_true_eq] at hcond
    omega
  · simp only [daily_start_ts]
    omega

/-- Witness for C8 with now = 100000 s, offset +3 h: local midnight is at
75600; a match at 75600 is included, one at 75599 is excluded. -/
theorem c8_daily_window_witness :
    ((⟨1, 75600, 0, 0, 0, 0, 0, 0, 0, true, 0⟩ : MatchInfo) ∈
      ([⟨1, 75600, 0, 0, 0, 0, 0, 0, 0, true, 0⟩] : List MatchInfo)) ∧
    ((⟨1, 75600, 0, 0, 0, 0, 0, 0, 0, true, 0⟩ : MatchInfo).start_time =
      daily_start_ts 100000 3) ∧
    ((⟨1, 75600, 0, 0, 0, 0, 0, 0, 0, true, 0⟩ : MatchInfo) ∈
      today_matches [⟨1, 75600, 0, 0, 0, 0, 0, 0, 0, true, 0⟩]
        (daily_start_ts 100000 3) 100000) ∧
    ((⟨2, 75599, 0, 0, 0, 0, 0, 0, 0, true, 0⟩ : MatchInfo).start_time =
      daily_start_ts 100000 3 - 1) ∧
    ((⟨2, 75599, 0, 0, 0, 0, 0, 0, 0, true, 0⟩ : MatchInfo) ∉
      today_matches [⟨2, 75599, 0, 0, 0, 0, 0, 0, 0, true, 0⟩]
        (daily_start_ts 100000 3) 100000) :=
  ⟨by decide, by decide,
   (c8_daily_window 100000 3 [⟨1, 75600, 0, 0, 0, 0, 0, 0, 0, true, 0⟩]
      ⟨1, 75600, 0, 0, 0, 0, 0, 0, 0, true, 0⟩).2.1 (by decide) (by decide),
   by decide,
   (c8_daily_window 100000 3 [⟨2, 75599, 0, 0, 0, 0, 0, 0, 0, true, 0⟩]
      ⟨2, 75599, 0, 0, 0, 0, 0, 0, 0, true, 0⟩).2.2.1 (by decide)⟩

/-- Claim C10: after any od_get call the cache holds the returned value
under the path+params key (errors included, since the None sentinel is
cached like data); a call that actually fetched stamps the entry with the
call time; any call with caching enabled that finds an entry younger than
CACHE_TTL returns the stored data without a network request and without
changing the cache — so a cached failure is not re-attempted before the TTL
expires. -/
theorem c10_cache_readthrough {α : Type} (c : Cache α) (now : Int)
    (key : String) (use_cache : Bool) (out : UpstreamResult α) :
    (∃ ts, lookupA (od_get c now key use_cache out).cache key =
      some ⟨ts, (od_get c now key use_cache out).result⟩) ∧
    ((od_get c now key use_cache out).fetched = true →
      lookupA (od_get c now key use_cache out).cache key =
        some ⟨now, (od_get c now key use_cache out).result⟩) ∧
    (∀ (ts : Int) (d : Option α) (now2 : Int) (out2 : UpstreamResult α),
      lookupA c key = some ⟨ts, d⟩ → now2 - ts < CACHE_TTL →
      od_get c now2 key true out2 = ⟨d, c, false⟩) ∧
    (∀ (now2 : Int) (out2 : UpstreamResult α),
      (od_get c now key use_cache out).fetched = true →
      now2 - now < CACHE_TTL →
      od_get (od_get c now key use_cache out).cache now2 key true out2 =
        ⟨(od_get c now key use_cache out).result,
         (od_get c now key use_cache out).cache, false⟩) := by
  have hsplit :
      (od_get c now key use_cache out =
        ⟨od_get_result out, upsertA c key ⟨now, od_get_result out⟩, true⟩) ∨
      (∃ e : CacheEntry α, lookupA c key = some e ∧
        now - e.ts < CACHE_TTL ∧
        od_get c now key use_cache out = ⟨e.data, c, false⟩) := by
    cases huc : use_cache with
    | false =>
      left
      simp [od_get]
    | true =>
      cases hl : lookupA c key with
      | none =>
        left
        simp [od_get, hl]
      | some e =>
        by_cases hf : now - e.ts < CACHE_TTL
        · right
          refine ⟨e, ?_, hf, ?_⟩
          · rfl
          · simp [od_get, hl, hf]
        · left
          simp [od_get, hl, hf]
  have hit : ∀ (c2 : Cache α) (ts : Int) (d : Option α) (now2 : Int)
      (out2 : UpstreamResult α),
      lookupA c2 key = some ⟨ts, d⟩ → now2 - ts < CACHE_TTL →
      od_get c2 now2 key true out2 = ⟨d, c2, false⟩ := by
    intro c2 ts d now2 out2 hl hf
    simp [od_get, hl, hf]
  have hB : (od_get c now key use_cache out).fetched = true →
      lookupA (od_get c now key use_cache out).cache key =
        some ⟨now, (od_get c now key use_cache out).result⟩ := by
    rcases hsplit with h | ⟨e, hl, hf, h⟩
    · intro _
      rw [h]
      exact lookupA_upsertA c key ⟨now, od_get_result out⟩
    · intro hct
      rw [h] at hct
      simp at hct
  refine ⟨?_, hB, hit c, ?_⟩
  · rcases hsplit with h | ⟨⟨ets, ed⟩, hl, hf, h⟩
    · rw [h]
      exact ⟨now, lookupA_upsertA c key ⟨now, od_get_result out⟩⟩
    · rw [h]
      exact ⟨ets, hl⟩
  · intro now2 out2 hfet httl
    rcases hsplit with h | ⟨e, hl, hf, h⟩
    · rw [h]
      exact hit (upsertA c key ⟨now, od_get_result out⟩) now
        (od_get_result out) now2 out2
        (lookupA_upsertA c key ⟨now, od_get_result out⟩) httl
    · rw [h] at hfet
      simp at hfet

/-- Witness for C10: the first call caches a transport failure; a second
call 50 s later returns the cached None without fetching, even though the
upstream would by then answer 200. -/
theorem c10_cache_readthrough_witness :
    (od_get ([] : Cache Int) 0 "k" true UpstreamResult.netError).fetched
      = true ∧
    (50 : Int) - 0 < CACHE_TTL ∧
    od_get (od_get ([] : Cache Int) 0 "k" true UpstreamResult.netError).cache
        50 "k" true (UpstreamResult.response 200 (some 9)) =
      ⟨(od_get ([] : Cache Int) 0 "k" true UpstreamResult.netError).result,
       (od_get ([] : Cache Int) 0 "k" true UpstreamResult.netError).cache,
       false⟩ :=
  ⟨by decide, by decide,
   (c10_cache_readthrough [] 0 "k" true UpstreamResult.netError).2.2.2 50
     (UpstreamResult.response 200 (some 9)) (by decide) (by decide)⟩

/-- Claim C1: with the last_any_match watermark unset, a cycle that fetches
a most-recent match with id M persists exactly one row for (account, M),
sets the watermark to M and sends exactly one match-card notification; a
cycle whose fetched id equals the stored watermark sends no notification of
either kind and leaves the matches table and the watermark unchanged. -/
theorem c1_watermark_first_observation (table : MatchTable) (steam32 : Int)
    (u : UserState) (m : MatchInfo) (detail : Option (List PlayerDetail))
    (rf : Option Int) :
    (u.last_any_match = none →
      countA table (toString steam32, m.match_id) = 0 →
      (poll_step table steam32 u (some m) detail rf).user.last_any_match =
        some m.match_id ∧
      countA (poll_step table steam32 u (some m) detail rf).table
        (toString steam32, m.match_id) = 1 ∧
      (poll_step table steam32 u (some m) detail rf).cards = 1) ∧
    (u.last_any_match = some m.match_id →
      (poll_step table steam32 u (some m) detail rf).cards = 0 ∧
      (poll_step table steam32 u (some m) detail rf).streak_msgs = 0 ∧
      (poll_step table steam32 u (some m) detail rf).table = table ∧
      (poll_step table steam32 u (some m) detail rf).user.last_any_match =
        u.last_any_match) := by
  constructor
  · intro h0 hcnt
    have hne : u.last_any_match ≠ some m.match_id := by
      rw [h0]
      exact fun hc => Option.noConfusion hc
    refine ⟨?_, ?_, poll_step_new_cards table steam32 u m detail rf hne⟩
    · rw [poll_step_new_user table steam32 u m detail rf hne,
        ranked_update_last_any]
    · rw [poll_step_new_table table steam32 u m detail rf hne]
      exact countA_upsertA table (toString steam32, m.match_id) _ (by omega)
  · intro h
    have hrest := poll_step_hit_rest table steam32 u m detail rf h
    refine ⟨hrest.2.1, hrest.2.2, hrest.1, ?_⟩
    rw [poll_step_hit_user table steam32 u m detail rf h,
      ranked_update_last_any]

/-- Witness for C1: steam32 7, match id 555; a first observation against an
unset watermark, then a repeat observation against watermark 555. -/
theorem c1_watermark_first_observation_witness :
    ((⟨none, some 4000, some 4000, none, none⟩ : UserState).last_any_match =
        none ∧
     countA ([] : MatchTable) (toString (7 : Int), (555 : Int)) = 0 ∧
     ((poll_step [] 7 ⟨none, some 4000, some 4000, none, none⟩
         (some ⟨555, 1000, 1800, 1, 10, 2, 5, 7, 22, true, 10⟩) none
         none).user.last_any_match = some 555 ∧
      countA (poll_step [] 7 ⟨none, some 4000, some 4000, none, none⟩
         (some ⟨555, 1000, 1800, 1, 10, 2, 5, 7, 22, true, 10⟩) none
         none).table (toString (7 : Int), 555) = 1 ∧
      (poll_step [] 7 ⟨none, some 4000, some 4000, none, none⟩
         (some ⟨555, 1000, 1800, 1, 10, 2, 5, 7, 22, true, 10⟩) none
         none).cards = 1)) ∧
    ((⟨none, some 4000, some 4000, some 555, none⟩ : UserState).last_any_match
        = some 555 ∧
     ((poll_step [] 7 ⟨none, some 4000, some 4000, some 555, none⟩
         (some ⟨555, 1000, 1800, 1, 10, 2, 5, 7, 22, true, 10⟩) none
         none).cards = 0 ∧
      (poll_step [] 7 ⟨none, some 4000, some 4000, some 555, none⟩
         (some ⟨555, 1000, 1800, 1, 10, 2, 5, 7, 22, true, 10⟩) none
         none).streak_msgs = 0 ∧
      (poll_step [] 7 ⟨none, some 4000, some 4000, some 555, none⟩
         (some ⟨555, 1000, 1800, 1, 10, 2, 5, 7, 22, true, 10⟩) none
         none).table = ([] : MatchTable) ∧
      (poll_step [] 7 ⟨none, some 4000, some 4000, some 555, none⟩
         (some ⟨555, 1000, 1800, 1, 10, 2, 5, 7, 22, true, 10⟩) none
         none).user.last_any_match =
        (⟨none, some 4000, some 4000, some 555, none⟩ :
          UserState).last_any_match)) :=
  ⟨⟨rfl, by decide,
    (c1_watermark_first_observation [] 7
      ⟨none, some 4000, some 4000, none, none⟩
      ⟨555, 1000, 1800, 1, 10, 2, 5, 7, 22, true, 10⟩ none none).1 rfl
      (by decide)⟩,
   ⟨rfl,
    (c1_watermark_first_observation [] 7
      ⟨none, some 4000, some 4000, some 555, none⟩
      ⟨555, 1000, 1800, 1, 10, 2, 5, 7, 22, true, 10⟩ none none).2 rfl⟩⟩

/-- Claim C2: re-applying db_upsert_match with identical input is a no-op
(same table state, one row under the primary key holding the written
values), and a poll cycle that observes a match id equal to the stored
watermark sends no notification for it. -/
theorem c2_upsert_idempotent (t : MatchTable) (k : String × Int)
    (row : StoredMatch) (table : MatchTable) (steam32 : Int) (u : UserState)
    (m : MatchInfo) (detail : Option (List PlayerDetail)) (rf : Option Int) :
    db_upsert_match (db_upsert_match t k row) k row = db_upsert_match t k row ∧
    db_lookup_match (db_upsert_match t k row) k = some row ∧
    (countA t k ≤ 1 → countA (db_upsert_match t k row) k = 1) ∧
    (u.last_any_match = some m.match_id →
      (poll_step table steam32 u (some m) detail rf).cards = 0 ∧
      (poll_step table steam32 u (some m) detail rf).streak_msgs = 0) := by
  refine ⟨upsertA_upsertA t k row, lookupA_upsertA t k row,
    countA_upsertA t k row, ?_⟩
  intro h
  exact ⟨(poll_step_hit_rest table steam32 u m detail rf h).2.1,
    (poll_step_hit_rest table steam32 u m detail rf h).2.2⟩

/-- Witness for C2: upserting one concrete row into the empty table, and a
repeat poll observation of match 555 with watermark 555. -/
theorem c2_upsert_idempotent_witness :
    countA ([] : MatchTable) ("7", 555) ≤ 1 ∧
    (⟨none, some 4000, some 4000, some 555, none⟩ : UserState).last_any_match
      = some 555 ∧
    countA (db_upsert_match [] ("7", 555)
        ⟨1000, 1800, 1, 10, 2, 5, 7, 22, 1, 10, none, none, some 30,
         some 4030⟩) ("7", 555) = 1 ∧
    (poll_step [] 7 ⟨none, some 4000, some 4000, some 555, none⟩
        (some ⟨555, 1000, 1800, 1, 10, 2, 5, 7, 22, true, 10⟩) none
        none).cards = 0 :=
  ⟨by decide, rfl,
   (c2_upsert_idempotent [] ("7", 555)
      ⟨1000, 1800, 1, 10, 2, 5, 7, 22, 1, 10, none, none, some 30, some 4030⟩
      [] 7 ⟨none, some 4000, some 4000, some 555, none⟩
      ⟨555, 1000, 1800, 1, 10, 2, 5, 7, 22, true, 10⟩ none none).2.2.1
     (by decide),
   ((c2_upsert_idempotent [] ("7", 555)
      ⟨1000, 1800, 1, 10, 2, 5, 7, 22, 1, 10, none, none, some 30, some 4030⟩
      [] 7 ⟨none, some 4000, some 4000, some 555, none⟩
      ⟨555, 1000, 1800, 1, 10, 2, 5, 7, 22, true, 10⟩ none none).2.2.2
     rfl).1⟩

/-- Claim C3: for a newly detected ranked (lobby_type 7) match with an
existing base rating, the simulated delta is +ASSUMED_MMR_DELTA on a win of
the tracked player's side and -ASSUMED_MMR_DELTA on a loss; the base is the
manual exact rating when set, else the auto rating; the persisted row holds
that delta and base+delta, and base+delta is written back into the exact
field when the exact rating was set, else into the auto field. -/
theorem c3_ranked_rating_step (table : MatchTable) (steam32 : Int)
    (u : UserState) (m : MatchInfo) (detail : Option (List PlayerDetail))
    (rf : Option Int) (base : Int)
    (h1 : u.last_any_match ≠ some m.match_id)
    (h2 : m.lobby_type = 7)
    (h3 : effectiveMmr u = some base) :
    (db_lookup_match (poll_step table steam32 u (some m) detail rf).table
        (toString steam32, m.match_id)).map
        (fun row => (row.delta_mmr, row.mmr_after)) =
      some (some (assumed_delta m), some (base + assumed_delta m)) ∧
    (is_player_win m.player_slot m.radiant_win = true →
      assumed_delta m = ASSUMED_MMR_DELTA) ∧
    (is_player_win m.player_slot m.radiant_win = false →
      assumed_delta m = -ASSUMED_MMR_DELTA) ∧
    (u.exact_mmr.isSome = true →
      (poll_step table steam32 u (some m) detail rf).user.exact_mmr =
        some (base + assumed_delta m) ∧
      (poll_step table steam32 u (some m) detail rf).user.current_mmr =
        u.current_mmr) ∧
    (u.exact_mmr = none →
      (poll_step table steam32 u (some m) detail rf).user.current_mmr =
        some (base + assumed_delta m) ∧
      (poll_step table steam32 u (some m) detail rf).user.exact_mmr =
        none) := by
  have hstep := ranked_mmr_step_spec u m base h2 h3
  refine ⟨?_, ?_, ?_, ?_, ?_⟩
  · rw [poll_step_new_table table steam32 u m detail rf h1]
    simp only [db_lookup_match, db_upsert_match]
    rw [lookupA_upsertA, hstep]
    simp [stored_row]
  · intro hw
    simp [assumed_delta, hw]
  · intro hw
    simp [assumed_delta, hw]
  · intro hex
    rw [poll_step_new_user table steam32 u m detail rf h1]
    constructor
    · rw [ranked_update_exact_mmr, hstep]
      simp [hex]
    · rw [ranked_update_current_mmr, hstep]
      simp [hex]
  · intro hnone
    have hex : u.exact_mmr.isSome = false := by
      rw [hnone]
      rfl
    rw [poll_step_new_user table steam32 u m detail rf h1]
    constructor
    · rw [ranked_update_current_mmr, hstep]
      simp [hex, apply_auto_mmr]
    · rw [ranked_update_exact_mmr, hstep]
      simp [hex, apply_auto_mmr, hnone]

/-- Witness for C3: ranked win of steam32 7 in match 555 with exact rating
4000 set (auto rating 3000): the row records delta +30 and rating 4030, and
4030 lands in the exact field while the auto field keeps 3000. -/
theorem c3_ranked_rating_step_witness :
    (⟨some 4000, some 3000, some 4100, none, none⟩ :
        UserState).last_any_match ≠ some 555 ∧
    (⟨555, 1000, 1800, 1, 10, 2, 5, 7, 22, true, 10⟩ :
        MatchInfo).lobby_type = 7 ∧
    effectiveMmr ⟨some 4000, some 3000, some 4100, none, none⟩ = some 4000 ∧
    (db_lookup_match (poll_step [] 7
        ⟨some 4000, some 3000, some 4100, none, none⟩
        (some ⟨555, 1000, 1800, 1, 10, 2, 5, 7, 22, true, 10⟩) none
        none).table (toString (7 : Int), 555)).map
        (fun row => (row.delta_mmr, row.mmr_after)) =
      some (some (assumed_delta ⟨555, 1000, 1800, 1, 10, 2, 5, 7, 22, true, 10⟩),
        some (4000 +
          assumed_delta ⟨555, 1000, 1800, 1, 10, 2, 5, 7, 22, true, 10⟩)) ∧
    ((poll_step [] 7 ⟨some 4000, some 3000, some 4100, none, none⟩
        (some ⟨555, 1000, 1800, 1, 10, 2, 5, 7, 22, true, 10⟩) none
        none).user.exact_mmr =
      some (4000 +
        assumed_delta ⟨555, 1000, 1800, 1, 10, 2, 5, 7, 22, true, 10⟩) ∧
     (poll_step [] 7 ⟨some 4000, some 3000, some 4100, none, none⟩
        (some ⟨555, 1000, 1800, 1, 10, 2, 5, 7, 22, true, 10⟩) none
        none).user.current_mmr = some 3000) :=
  ⟨by decide, rfl, rfl,
   (c3_ranked_rating_step [] 7 ⟨some 4000, some 3000, some 4100, none, none⟩
      ⟨555, 1000, 1800, 1, 10, 2, 5, 7, 22, true, 10⟩ none none 4000
      (by decide) rfl rfl).1,
   (c3_ranked_rating_step [] 7 ⟨some 4000, some 3000, some 4100, none, none⟩
      ⟨555, 1000, 1800, 1, 10, 2, 5, 7, 22, true, 10⟩ none none 4000
      (by decide) rfl rfl).2.2.2.1 rfl⟩

end DotaBot
